import Mathlib

/-!
Verification development for MoviWebApp (Flask + SQLAlchemy movie list app).

Shallow embedding of `models.py`, `data_manager.py` and the route handlers of
`app.py`.  Database state is a pair of lists of records; SQLAlchemy sessions
become explicit state passing; Python exceptions become an explicit outcome
type distinguishing values, handled errors returned as `(None, message)`
pairs, and uncaught exceptions.

Unicode-only corner cases of Python (`str.lower`, `str.strip`, `int()` on
numeric literals with underscores or non-ASCII digits) are modelled with their
ASCII behaviour, which is the behaviour exercised by the application; SQL
`ilike` is modelled as case-insensitive equality (the application never passes
the `%`/`_` wildcard characters in the relevant comparisons).
-/

namespace MoviWeb

/-- Column set of `models.Movie` (`models.py`).  Note: there is **no**
`imdb_id` column declared on the model. -/
structure Movie where
  id : Nat
  title : String
  year : Option String
  poster_url : Option String
  rating : Option Int
  user_id : Nat
deriving Repr, DecidableEq

/-- Column set of `models.User` (`models.py`); the creation timestamp is not
relevant to any claim and is omitted from the record. -/
structure User where
  id : Nat
  name : String
deriving Repr, DecidableEq

/-- Database state: the `user` and `movie` tables plus autoincrement
counters. -/
structure DB where
  users : List User
  movies : List Movie
  nextUserId : Nat
  nextMovieId : Nat
deriving Repr, DecidableEq

/-- Outcome of a Python call in the embedding: a returned value, a handled
error (the `(None, error_message)` convention of `DataManager`), or an
exception caught by no handler in the function. -/
inductive PyOutcome (α : Type) where
  | ok (v : α)
  | handled (msg : String)
  | uncaught (exn : String)
deriving Repr, DecidableEq

instance instDecidableEqExcept {ε α : Type} [DecidableEq ε] [DecidableEq α] :
    DecidableEq (Except ε α)
  | .error a, .error b =>
    if h : a = b then isTrue (by rw [h]) else isFalse (by intro c; injection c; contradiction)
  | .error _, .ok _ => isFalse (by intro c; exact Except.noConfusion c)
  | .ok _, .error _ => isFalse (by intro c; exact Except.noConfusion c)
  | .ok a, .ok b =>
    if h : a = b then isTrue (by rw [h]) else isFalse (by intro c; injection c; contradiction)

/-- Whitespace characters removed by Python `str.strip()` (ASCII range). -/
def pyWhitespace (c : Char) : Bool :=
  c = ' ' || c = '\t' || c = '\n' || c = '\r' || c = '\x0b' || c = '\x0c'

/-- Python `str.strip()`: remove leading and trailing whitespace. -/
def pyStrip (s : String) : String :=
  ⟨((s.data.dropWhile pyWhitespace).reverse.dropWhile pyWhitespace).reverse⟩

/-- Lower-case one character (ASCII; Unicode case folding is not exercised
by the application). -/
def pyLowerChar (c : Char) : Char :=
  if 'A' ≤ c ∧ c ≤ 'Z' then Char.ofNat (c.toNat + 32) else c

/-- Python `str.lower()` / the case folding of SQL `ilike` (ASCII). -/
def pyLower (s : String) : String :=
  ⟨s.data.map pyLowerChar⟩

/-- Python string truthiness for an optional string argument:
`x or alt` yields `alt` when `x` is `None` or the empty string. -/
def pyOrStr (x : Option String) (alt : String) : String :=
  match x with
  | none => alt
  | some s => if s = "" then alt else s

/-- `str(x)` for an optional string, as applied to `data.get("Response")`:
`str(None)` is the string `"None"`. -/
def pyStr : Option String → String
  | none => "None"
  | some s => s

/-- Case-insensitive string equality: models both `column.ilike(value)`
(with a wildcard-free value) and `a.lower() == b.lower()`. -/
def ilikeEq (a b : String) : Bool :=
  pyLower a = pyLower b

/-- Decimal value of a digit string. -/
def digitsToNat (ds : List Char) : Nat :=
  ds.foldl (fun acc c => 10 * acc + (c.toNat - '0'.toNat)) 0

/-- `int(s)` on a Python `str`: surrounding whitespace is ignored, an
optional single sign precedes one or more decimal digits; anything else
raises `ValueError`.  (Numeric literals with underscores or non-ASCII
digits are outside the model.) -/
def pyInt (s : String) : Option Int :=
  let t := (pyStrip s).data
  let (sign, digits) :=
    match t with
    | '-' :: rest => ((-1 : Int), rest)
    | '+' :: rest => ((1 : Int), rest)
    | _ => ((1 : Int), t)
  if digits ≠ [] ∧ digits.all Char.isDigit then
    some (sign * (digitsToNat digits : Int))
  else
    none

/-- The `rating` argument of `add_movie`/`update_movie`
(`Optional[str | int]` in the source). -/
inductive RatingVal where
  | none
  | str (s : String)
  | int (n : Int)
deriving Repr, DecidableEq

/-- Lift a stored `movie.rating` column value back into the argument
position, as `update_movie` does with
`rating if rating is not None else movie.rating`. -/
def ratingOfStored : Option Int → RatingVal
  | Option.none => .none
  | Option.some n => .int n

/-- Body of `DataManager._validate_movie_input` after the trimmed title
`t = (title or "").strip()` has been computed. -/
def validateWithTitle (t : String) (rating : RatingVal) :
    Except String (String × Option Int) :=
  if t = "" then
    .error "Title cannot be empty."
  else
    match rating with
    | .none => .ok (t, Option.none)
    | .str s =>
      if s = "" then .ok (t, Option.none)
      else
        match pyInt s with
        | Option.none => .error "Rating must be an integer between 1 and 10."
        | Option.some r =>
          if 1 ≤ r ∧ r ≤ 10 then .ok (t, Option.some r)
          else .error "Rating must be between 1 and 10."
    | .int r =>
      if 1 ≤ r ∧ r ≤ 10 then .ok (t, Option.some r)
      else .error "Rating must be between 1 and 10."

/-- `DataManager._validate_movie_input` (`data_manager.py`):
returns the trimmed title and the normalized rating, or raises
`ValueError` (modelled as `Except.error message`). -/
def validate_movie_input (title : Option String) (rating : RatingVal) :
    Except String (String × Option Int) :=
  validateWithTitle (pyStrip (title.getD "")) rating

/-- Normalized OMDb record returned by `DataManager._fetch_omdb`:
keys `title`, `year`, `imdb_id`, `poster_url`. -/
structure OmdbMeta where
  title : String
  year : Option String
  imdb_id : Option String
  poster_url : Option String
deriving Repr, DecidableEq

/-- What the OMDb HTTP exchange yields once issued: a transport/parsing
failure (`raise_for_status`, timeout, bad JSON — anything reaching the
`except Exception` handler), or a parsed JSON payload with the fields the
code reads via `data.get(...)` (absent keys are `None`). -/
inductive OmdbResponse where
  | transportError
  | payload (responseFlag ttl yr imdbID poster : Option String)
deriving Repr, DecidableEq

/-- Environment of a fetch: the `OMDB_API_KEY` variable (`none` = unset)
and what the network would answer if called. -/
structure OmdbEnv where
  apiKey : Option String
  response : OmdbResponse
deriving Repr, DecidableEq

/-- Result of `_fetch_omdb` together with whether a network request was
issued. -/
structure FetchOut where
  meta : OmdbMeta
  networkCalled : Bool
deriving Repr, DecidableEq

/-- The local-only fallback record
`{"title": title, "year": None, "imdb_id": None, "poster_url": None}`. -/
def omdbFallback (title : String) : OmdbMeta :=
  { title := title, year := Option.none, imdb_id := Option.none,
    poster_url := Option.none }

/-- `DataManager._fetch_omdb` (`data_manager.py`): skips the network when the
key is unset or empty (`if not api_key`); on success
(`str(data.get("Response")).lower() == "true"`) extracts
`Title or title`, `Year`, `imdbID`, and `Poster` with the `"N/A"` sentinel
mapped to absent; every failure path returns the fallback record. -/
def fetch_omdb (env : OmdbEnv) (title : String) : FetchOut :=
  match env.apiKey with
  | Option.none => { meta := omdbFallback title, networkCalled := false }
  | Option.some key =>
    if key = "" then { meta := omdbFallback title, networkCalled := false }
    else
      match env.response with
      | .transportError => { meta := omdbFallback title, networkCalled := true }
      | .payload responseFlag ttl yr imdbID poster =>
        if pyLower (pyStr responseFlag) = "true" then
          { meta :=
              { title := pyOrStr ttl title,
                year := yr,
                imdb_id := imdbID,
                poster_url :=
                  match poster with
                  | Option.none => Option.none
                  | Option.some p => if p = "N/A" then Option.none else Option.some p },
            networkCalled := true }
        else
          { meta := omdbFallback title, networkCalled := true }

/-- `DataManager.create_user` (`data_manager.py`). -/
def create_user (db : DB) (name : String) : PyOutcome User × DB :=
  let norm := pyStrip name
  if norm = "" then
    (.handled "User name cannot be empty.", db)
  else if db.users.any (fun u => ilikeEq u.name norm) then
    (.handled ("User '" ++ norm ++ "' already exists."), db)
  else
    let u : User := { id := db.nextUserId, name := norm }
    (.ok u,
     { db with users := db.users ++ [u], nextUserId := db.nextUserId + 1 })

/-- Keyword arguments passed to the `Movie(...)` constructor inside
`DataManager.add_movie` (`data_manager.py`, the `movie = Movie(...)`
expression). -/
def addMovieCtorKwargs : List String :=
  ["user_id", "title", "year", "imdb_id", "poster_url", "rating"]

/-- Attribute names the SQLAlchemy declarative constructor of
`models.Movie` accepts: its declared columns and relationship.  A keyword
argument outside this list raises `TypeError`, which `add_movie` does not
catch (its handlers cover only `ValueError` and `SQLAlchemyError`). -/
def movieDeclaredAttrs : List String :=
  ["id", "title", "year", "poster_url", "rating", "user_id", "user"]

/-- `DataManager.add_movie` (`data_manager.py`): validate, per-user
case-insensitive duplicate check, OMDb enrichment, then `Movie(...)`
construction and commit.  The constructor's keyword-argument check is made
explicit: only if every kwarg is a declared attribute does a row get built
and inserted; otherwise the call raises an uncaught `TypeError`. -/
def add_movie (db : DB) (user_id : Nat) (title : String) (rating : RatingVal)
    (env : OmdbEnv) : PyOutcome Movie × DB :=
  match validate_movie_input (Option.some title) rating with
  | .error msg => (.handled msg, db)
  | .ok (norm_title, norm_rating) =>
    if db.movies.any (fun m => m.user_id = user_id && ilikeEq m.title norm_title) then
      (.handled ("Movie '" ++ norm_title ++ "' already exists for this user."), db)
    else
      let meta := (fetch_omdb env norm_title).meta
      if addMovieCtorKwargs.all (fun k => movieDeclaredAttrs.contains k) then
        let m : Movie :=
          { id := db.nextMovieId, title := meta.title, year := meta.year,
            poster_url := meta.poster_url, rating := norm_rating,
            user_id := user_id }
        (.ok m,
         { db with movies := db.movies ++ [m], nextMovieId := db.nextMovieId + 1 })
      else
        (.uncaught "TypeError: 'imdb_id' is an invalid keyword argument for Movie", db)

/-- `title is None or title.strip() == ""` from `update_movie`'s no-op
check. -/
def titleBlank : Option String → Bool
  | Option.none => true
  | Option.some s => pyStrip s = ""

/-- Replace the first movie with the given id (the single object returned by
`Movie.query.get(movie_id)` is mutated in place; committing persists it). -/
def setFirstMovie : List Movie → Nat → Movie → List Movie
  | [], _, _ => []
  | x :: xs, movie_id, m2 =>
    if x.id = movie_id then m2 :: xs else x :: setFirstMovie xs movie_id m2

/-- Result of `update_movie` plus whether the re-enrichment branch ran
(whether `_fetch_omdb` was invoked). -/
structure UpdOut where
  outcome : PyOutcome Movie
  db : DB
  enriched : Bool
deriving Repr, DecidableEq

/-- `rating if rating is not None else movie.rating` from `update_movie`. -/
def ratingArgOf (movie : Movie) : RatingVal → RatingVal
  | .none => ratingOfStored movie.rating
  | r => r

/-- Body of `DataManager.update_movie` (`data_manager.py`) once the movie is
found.  The blank-input no-op check, argument defaulting
(`title or movie.title`, `rating if rating is not None else movie.rating`),
shared validation, the duplicate check guarded by a comparison against the
OLD in-memory title, the in-place assignment of title and rating, and then
the re-enrichment branch whose guard re-compares `new_title` against the
ALREADY-OVERWRITTEN `movie.title`.  (In that branch the source also assigns
`movie.imdb_id`, which is not a declared column of `Movie` and is a
transient, non-persisted Python attribute; it has no counterpart in the
record.) -/
def update_movie_found (db : DB) (movie_id : Nat) (movie : Movie)
    (title : Option String) (rating : RatingVal) (env : OmdbEnv) : UpdOut :=
    if titleBlank title && (rating = .none || rating = .str "") then
      { outcome := .ok movie, db := db, enriched := false }
    else
      match validate_movie_input (Option.some (pyOrStr title movie.title))
          (ratingArgOf movie rating) with
      | .error msg => { outcome := .handled msg, db := db, enriched := false }
      | .ok (new_title, new_rating) =>
        if pyLower new_title ≠ pyLower (pyOrStr (Option.some movie.title) "")
            && db.movies.any
              (fun m => m.user_id = movie.user_id && ilikeEq m.title new_title) then
          { outcome := .handled ("Movie '" ++ new_title ++ "' already exists for this user."),
            db := db, enriched := false }
        else
          let movie1 := { movie with title := new_title, rating := new_rating }
          if pyLower new_title ≠ pyLower (pyOrStr (Option.some movie1.title) "") then
            let meta := (fetch_omdb env new_title).meta
            let movie2 :=
              { movie1 with
                title := meta.title, year := meta.year, poster_url := meta.poster_url }
            { outcome := .ok movie2,
              db := { db with movies := setFirstMovie db.movies movie_id movie2 },
              enriched := true }
          else
            { outcome := .ok movie1,
              db := { db with movies := setFirstMovie db.movies movie_id movie1 },
              enriched := false }

/-- `DataManager.update_movie` (`data_manager.py`): look the movie up by id
and, when found, run the body above. -/
def update_movie (db : DB) (movie_id : Nat) (title : Option String)
    (rating : RatingVal) (env : OmdbEnv) : UpdOut :=
  match db.movies.find? (fun m => m.id = movie_id) with
  | Option.none => { outcome := .handled "Movie not found.", db := db, enriched := false }
  | Option.some movie => update_movie_found db movie_id movie title rating env

/-- `DataManager.delete_movie` (`data_manager.py`). -/
def delete_movie (db : DB) (movie_id : Nat) : Option String × DB :=
  match db.movies.find? (fun m => m.id = movie_id) with
  | Option.none => (Option.some "Movie not found.", db)
  | Option.some movie =>
    (Option.none, { db with movies := db.movies.erase movie })

/-! Route handlers from `app.py`.  Flask turns an exception escaping a
handler into the generic 500 error page; the registered handlers render
`500.html` and `404.html`. -/

/-- HTTP response produced by a route: a redirect carrying a one-shot flash
`(message, category)`, a rendered page, or one of the error pages. -/
inductive HttpResponse where
  | redirect (endpoint : String) (flash : String × String)
  | moviesPage (user : User) (movies : List Movie)
  | page404
  | page500
deriving Repr, DecidableEq

/-- Parameters of `DataManager.update_movie` (`self` excluded):
`(movie_id, title, rating)` — the signature accepts no `year` or
`poster_url`. -/
def updateMovieParams : List String := ["movie_id", "title", "rating"]

/-- Keyword arguments the `POST .../update` route (`app.py`) passes to
`dm.update_movie`. -/
def updateRouteKwargs : List String := ["title", "rating", "year", "poster_url"]

/-- The methods (and inherited-from-object attributes aside) defined on
`DataManager` (`data_manager.py`): there is no `get_user`. -/
def dataManagerMethods : List String :=
  ["_normalize_name", "_validate_movie_input", "get_users", "create_user",
   "get_movies", "_fetch_omdb", "add_movie", "update_movie", "delete_movie"]

/-- Form fields of the update form as read by the route
(`request.form.get` yields `None` for an absent field). -/
structure UpdateForm where
  title : Option String
  rating : Option String
  year : Option String
  poster_url : Option String
deriving Repr, DecidableEq

/-- `x if x not in ("", None) else None` applied to the rating/year/poster
fields in the update route. -/
def noneIfBlank : Option String → Option String
  | Option.none => Option.none
  | Option.some s => if s = "" then Option.none else Option.some s

/-- The `POST /users/<user_id>/movies/<movie_id>/update` handler
(`app.py`, `update_movie` view).  It calls
`dm.update_movie(movie_id, title=…, rating=…, year=…, poster_url=…)`;
Python accepts the call only if every keyword argument names a parameter of
the method — otherwise the call raises `TypeError`, no handler in the view
catches it, and Flask answers with the 500 page.  (Were the call accepted,
the view would also bind the method's `(movie, error)` pair to the single
variable `err`, a tuple that is always truthy, and flash it as an error.) -/
def update_movie_route (db : DB) (user_id movie_id : Nat) (form : UpdateForm)
    (env : OmdbEnv) : HttpResponse × DB :=
  if updateRouteKwargs.all (fun k => updateMovieParams.contains k) then
    let ratingArg :=
      match noneIfBlank form.rating with
      | Option.none => RatingVal.none
      | Option.some s => RatingVal.str s
    let out := update_movie db movie_id form.title ratingArg env
    (.redirect "list_movies" ("err pair is always truthy", "error"), out.db)
  else
    (.page500, db)

/-- The `GET /users/<user_id>/movies` handler (`app.py`, `list_movies`
view).  Its first statement is `user = dm.get_user(user_id)`; attribute
lookup on the `DataManager` instance finds no `get_user`, raises
`AttributeError`, and Flask answers with the 500 page.  (Were the method
present, the view would redirect home with an error flash for a missing
user and otherwise render the movie list.) -/
def list_movies_route (db : DB) (user_id : Nat) : HttpResponse × DB :=
  if dataManagerMethods.contains "get_user" then
    match db.users.find? (fun u => u.id = user_id) with
    | Option.none => (.redirect "index" ("User not found.", "error"), db)
    | Option.some user =>
      let movies := (db.movies.filter (fun m => m.user_id = user_id))
      (.moviesPage user (movies.mergeSort (fun a b => a.title ≤ b.title)), db)
  else
    (.page500, db)

/-! Concrete fixtures used by witnesses and counterexamples. -/

/-- An environment with no OMDb key configured. -/
def env0 : OmdbEnv := { apiKey := Option.none, response := .transportError }

/-- A stored user. -/
def alice : User := { id := 1, name := "Alice" }

/-- A second stored user. -/
def bob : User := { id := 2, name := "Bob" }

/-- A stored movie owned by `alice`, with a rating. -/
def inception : Movie :=
  { id := 1, title := "Inception", year := Option.some "2010",
    poster_url := Option.some "https://img/inception.jpg",
    rating := Option.some 5, user_id := 1 }

/-- State with one user and no movies. -/
def db0 : DB := { users := [alice], movies := [], nextUserId := 2, nextMovieId := 1 }

/-- State with two users and one movie owned by user 1. -/
def db1 : DB :=
  { users := [alice, bob], movies := [inception], nextUserId := 3, nextMovieId := 2 }

/-- State with two users and an empty movie table. -/
def db2 : DB := { users := [alice, bob], movies := [], nextUserId := 3, nextMovieId := 1 }

/-! Helper lemmas. -/

theorem pyOrStr_some_empty (s : String) : pyOrStr (Option.some s) "" = s := by
  unfold pyOrStr
  split <;> simp_all

theorem pyInt_of_empty : pyInt "" = Option.none := by decide

theorem pyInt_some_ne_empty {s : String} {r : Int} (h : pyInt s = Option.some r) :
    s ≠ "" := by
  intro hs
  subst hs
  rw [pyInt_of_empty] at h
  exact Option.noConfusion h

theorem validateWithTitle_ok {t : String} {rv : RatingVal} {nt : String}
    {nr : Option Int} (h : validateWithTitle t rv = .ok (nt, nr)) :
    nt = t ∧ t ≠ "" := by
  unfold validateWithTitle at h
  split at h
  · exact Except.noConfusion h
  · rename_i hne
    refine ⟨?_, hne⟩
    split at h
    · simp_all
    · split at h
      · simp_all
      · split at h
        · exact Except.noConfusion h
        · split at h
          · simp_all
          · exact Except.noConfusion h
    · split at h
      · simp_all
      · exact Except.noConfusion h

theorem validate_ok_title {t : Option String} {rv : RatingVal} {nt : String}
    {nr : Option Int} (h : validate_movie_input t rv = .ok (nt, nr)) :
    nt = pyStrip (t.getD "") ∧ pyStrip (t.getD "") ≠ "" := by
  unfold validate_movie_input at h
  exact validateWithTitle_ok h

theorem setFirstMovie_map {α : Type} (f : Movie → α) :
    ∀ (l : List Movie) (movie_id : Nat) (m m2 : Movie),
      l.find? (fun x => x.id = movie_id) = Option.some m →
      f m2 = f m →
      (setFirstMovie l movie_id m2).map f = l.map f := by
  intro l
  induction l with
  | nil => intro movie_id m m2 h _; simp [List.find?] at h
  | cons x xs ih =>
    intro movie_id m m2 hfind hf
    rw [List.find?_cons] at hfind
    unfold setFirstMovie
    by_cases hx : x.id = movie_id
    · simp [hx] at hfind ⊢
      subst hfind
      simp [hf]
    · simp [hx] at hfind ⊢
      exact ih movie_id m m2 hfind hf

theorem update_movie_of_find {db : DB} {movie_id : Nat} {movie : Movie}
    (title : Option String) (rating : RatingVal) (env : OmdbEnv)
    (hfind : db.movies.find? (fun m => m.id = movie_id) = Option.some movie) :
    update_movie db movie_id title rating env =
      update_movie_found db movie_id movie title rating env := by
  unfold update_movie
  rw [hfind]

/-- Once validation and the duplicate check pass, `add_movie` reaches the
`Movie(... imdb_id=...)` constructor call, raises `TypeError`, and leaves
the state unchanged. -/
theorem add_movie_crash (db : DB) (user_id : Nat) (title : String)
    (rating : RatingVal) (env : OmdbEnv) (nt : String) (nr : Option Int)
    (hval : validate_movie_input (Option.some title) rating = .ok (nt, nr))
    (hdup : db.movies.any (fun m => m.user_id = user_id && ilikeEq m.title nt) = false) :
    add_movie db user_id title rating env =
      (.uncaught "TypeError: 'imdb_id' is an invalid keyword argument for Movie", db) := by
  unfold add_movie
  rw [hval]
  simp only [hdup, Bool.false_eq_true, if_false]
  rw [show (addMovieCtorKwargs.all fun k => movieDeclaredAttrs.contains k) = false from by decide]
  simp

/-! Claim theorems. -/

/-- C1: for every call to `add_movie` whose inputs pass validation and the
per-user case-insensitive duplicate check (with an existing user id), the
`Movie` construction uses an `imdb_id` keyword argument that the model does
not declare, so the call raises a `TypeError` caught by neither the
`ValueError` nor the `SQLAlchemyError` handler; `add_movie` never returns a
created `Movie` and never changes the stored state. -/
theorem add_movie_constructor_type_error
    (db : DB) (user_id : Nat) (title : String) (rating : RatingVal)
    (env : OmdbEnv) (nt : String) (nr : Option Int)
    (huser : db.users.any (fun u => u.id = user_id) = true)
    (hval : validate_movie_input (Option.some title) rating = .ok (nt, nr))
    (hdup : db.movies.any (fun m => m.user_id = user_id && ilikeEq m.title nt) = false) :
    add_movie db user_id title rating env =
      (.uncaught "TypeError: 'imdb_id' is an invalid keyword argument for Movie", db) :=
  add_movie_crash db user_id title rating env nt nr hval hdup

/-- Witness for C1 at a concrete input. -/
theorem add_movie_constructor_type_error_witness :
    add_movie db0 1 "Inception" (.str "7") env0 =
      (.uncaught "TypeError: 'imdb_id' is an invalid keyword argument for Movie", db0) :=
  add_movie_constructor_type_error db0 1 "Inception" (.str "7") env0
    "Inception" (Option.some 7) (by decide) (by decide) (by decide)

/-- C2 (code bug evidence): on a state with users 1 and 2 and an empty
movie table, adding "Inception" for user 1 raises an uncaught `TypeError`
and persists nothing; repeating the identical add on the resulting state
again raises `TypeError` (never a Conflict error, since nothing was
stored); adding "Inception" for the other user also raises `TypeError`
rather than succeeding. -/
theorem add_inception_twice_never_conflicts :
    add_movie db2 1 "Inception" .none env0 =
      (.uncaught "TypeError: 'imdb_id' is an invalid keyword argument for Movie", db2) ∧
    add_movie (add_movie db2 1 "Inception" .none env0).2 1 "Inception" .none env0 =
      (.uncaught "TypeError: 'imdb_id' is an invalid keyword argument for Movie", db2) ∧
    add_movie db2 2 "Inception" .none env0 =
      (.uncaught "TypeError: 'imdb_id' is an invalid keyword argument for Movie", db2) := by
  decide

/-- C6: updating a movie id that is not in storage fails with
"Movie not found." for every combination of supplied fields and leaves the
state unchanged. -/
theorem update_movie_missing_id_not_found
    (db : DB) (movie_id : Nat) (title : Option String) (rating : RatingVal)
    (env : OmdbEnv) (h : ∀ m ∈ db.movies, m.id ≠ movie_id) :
    update_movie db movie_id title rating env =
      { outcome := .handled "Movie not found.", db := db, enriched := false } := by
  have hfind : db.movies.find? (fun m => m.id = movie_id) = Option.none := by
    apply List.find?_eq_none.mpr
    intro x hx
    simp [h x hx]
  unfold update_movie
  rw [hfind]

/-- Witness for C6 at a concrete input (all-blank field combination on an
empty movie table). -/
theorem update_movie_missing_id_not_found_witness :
    update_movie db0 5 Option.none .none env0 =
      { outcome := .handled "Movie not found.", db := db0, enriched := false } :=
  update_movie_missing_id_not_found db0 5 Option.none .none env0
    (by intro m hm; simp [db0] at hm)

/-- C7: creating a user whose name is empty after trimming fails with
"User name cannot be empty." and leaves the state unchanged. -/
theorem create_user_blank_name_invalid (db : DB) (name : String)
    (h : pyStrip name = "") :
    create_user db name = (.handled "User name cannot be empty.", db) := by
  simp [create_user, h]

/-- Witness for C7 at a concrete whitespace-only name. -/
theorem create_user_blank_name_invalid_witness :
    create_user db0 "   " = (.handled "User name cannot be empty.", db0) :=
  create_user_blank_name_invalid db0 "   " (by decide)

/-- C9: the `POST .../update` route passes `year` and `poster_url` keyword
arguments that `DataManager.update_movie` does not accept, so every update
request raises `TypeError` and is answered with the 500 page; the state is
unchanged and no redirect with a flash message is produced. -/
theorem update_route_always_500 (db : DB) (user_id movie_id : Nat)
    (form : UpdateForm) (env : OmdbEnv) :
    update_movie_route db user_id movie_id form env = (.page500, db) := by
  unfold update_movie_route
  rw [show (updateRouteKwargs.all fun k => updateMovieParams.contains k) = false from by decide]
  simp

/-- C10: the movie-list route calls `dm.get_user`, a method `DataManager`
does not define, so every request raises `AttributeError` and is answered
with the 500 page, whether or not the user id exists. -/
theorem list_movies_route_always_500 (db : DB) (user_id : Nat) :
    list_movies_route db user_id = (.page500, db) := by
  unfold list_movies_route
  rw [show dataManagerMethods.contains "get_user" = false from by decide]
  simp

/-- C5: the "did the title change" guard of the re-enrichment branch in
`update_movie` is evaluated after `movie.title` has been overwritten with
the new title, so it compares the new title with itself and is false on
every input: `update_movie` never invokes the metadata lookup and never
modifies any stored `year` or `poster_url` (the branch's `imdb_id`
assignment targets an attribute that is not even a column). -/
theorem update_movie_reenrichment_dead
    (db : DB) (movie_id : Nat) (title : Option String) (rating : RatingVal)
    (env : OmdbEnv) :
    (update_movie db movie_id title rating env).enriched = false ∧
    (update_movie db movie_id title rating env).db.movies.map
        (fun m => (m.year, m.poster_url)) =
      db.movies.map (fun m => (m.year, m.poster_url)) := by
  rcases hfind : db.movies.find? (fun m => m.id = movie_id) with _ | movie
  · unfold update_movie
    rw [hfind]
    exact ⟨rfl, rfl⟩
  · rw [update_movie_of_find title rating env hfind]
    unfold update_movie_found
    split
    · exact ⟨rfl, rfl⟩
    · simp only [pyOrStr_some_empty, ne_eq, eq_self_iff_true, not_true_eq_false,
        if_false, ite_false]
      split
      · exact ⟨rfl, rfl⟩
      · split
        · exact ⟨rfl, rfl⟩
        · refine ⟨rfl, ?_⟩
          exact setFirstMovie_map _ db.movies movie_id movie _ hfind rfl

/-- C8: the metadata lookup never surfaces an error: with no (or an empty)
configured key it makes no network call and returns the local-only fallback
record; a transport/parsing failure or an unsuccessful service-level status
flag also returns the fallback record; and on a successful response a
poster of "N/A" is returned as absent. -/
theorem fetch_omdb_error_absorption :
    (∀ env title, (env.apiKey = Option.none ∨ env.apiKey = Option.some "") →
      fetch_omdb env title = { meta := omdbFallback title, networkCalled := false }) ∧
    (∀ key title, key ≠ "" →
      fetch_omdb { apiKey := Option.some key, response := .transportError } title =
        { meta := omdbFallback title, networkCalled := true }) ∧
    (∀ key flag ttl yr iid poster title, key ≠ "" → pyLower (pyStr flag) ≠ "true" →
      fetch_omdb { apiKey := Option.some key, response := .payload flag ttl yr iid poster }
          title =
        { meta := omdbFallback title, networkCalled := true }) ∧
    (∀ key flag ttl yr iid title, key ≠ "" → pyLower (pyStr flag) = "true" →
      (fetch_omdb
          { apiKey := Option.some key, response := .payload flag ttl yr iid (Option.some "N/A") }
          title).meta.poster_url = Option.none) := by
  refine ⟨?_, ?_, ?_, ?_⟩
  · rintro env title (h | h) <;> simp [fetch_omdb, h]
  · intro key title hk
    simp [fetch_omdb, hk]
  · intro key flag ttl yr iid poster title hk hflag
    simp [fetch_omdb, hk, hflag]
  · intro key flag ttl yr iid title hk hflag
    simp [fetch_omdb, hk, hflag]

/-- Witness for C8 at concrete inputs: no key, a transport failure, a
service-level "False" flag, and a successful response carrying
`Poster = "N/A"`. -/
theorem fetch_omdb_error_absorption_witness :
    fetch_omdb env0 "Inception" =
      { meta := omdbFallback "Inception", networkCalled := false } ∧
    fetch_omdb { apiKey := Option.some "k", response := .transportError } "Inception" =
      { meta := omdbFallback "Inception", networkCalled := true } ∧
    fetch_omdb
        { apiKey := Option.some "k",
          response := .payload (Option.some "False") Option.none Option.none
            Option.none Option.none } "Inception" =
      { meta := omdbFallback "Inception", networkCalled := true } ∧
    (fetch_omdb
        { apiKey := Option.some "k",
          response := .payload (Option.some "True") (Option.some "Inception")
            (Option.some "2010") (Option.some "tt1375666") (Option.some "N/A") }
        "Inception").meta.poster_url = Option.none :=
  ⟨fetch_omdb_error_absorption.1 env0 "Inception" (Or.inl rfl),
   fetch_omdb_error_absorption.2.1 "k" "Inception" (by decide),
   fetch_omdb_error_absorption.2.2.1 "k" (Option.some "False") Option.none Option.none
     Option.none Option.none "Inception" (by decide) (by decide),
   fetch_omdb_error_absorption.2.2.2 "k" (Option.some "True") (Option.some "Inception")
     (Option.some "2010") (Option.some "tt1375666") "Inception" (by decide) (by decide)⟩

/-- C3 (counterexample): an absent rating supplied to `update_movie` is not
stored as absent — on a movie whose stored rating is 5, updating the title
with `rating=None` keeps the rating 5. -/
theorem update_absent_rating_not_stored_absent :
    (update_movie db1 1 (Option.some "Tenet") RatingVal.none env0).outcome =
      .ok { inception with title := "Tenet", rating := Option.some 5 } ∧
    ({ inception with title := "Tenet", rating := Option.some 5 } : Movie).rating ≠
      Option.none := by
  decide

/-- C4 (counterexample): supplying an empty-string rating together with a
non-blank title clears the stored rating (5 becomes absent) instead of
leaving it unchanged. -/
theorem update_empty_rating_with_title_clears_rating :
    inception.rating = Option.some 5 ∧
    (update_movie db1 1 (Option.some "Tenet") (.str "") env0).outcome =
      .ok { inception with title := "Tenet", rating := Option.none } := by
  decide

/-- C4 (amended): for a stored movie (trimmed, non-empty title), (a)
supplying only a new valid rating — title absent or the empty string —
changes exactly the rating: title, year and poster reference stay
unchanged, no re-enrichment runs; (b) supplying an empty-string title never
changes the title; (c) but supplying an empty-string rating together with a
non-blank title CLEARS the stored rating (it does not leave it unchanged);
an all-blank update is a pure no-op. -/
theorem update_blank_fields_amended
    (db : DB) (movie_id : Nat) (m : Movie) (env : OmdbEnv)
    (hfind : db.movies.find? (fun x => x.id = movie_id) = Option.some m)
    (ht : pyStrip m.title = m.title) (hne : m.title ≠ "") :
    (∀ s r, pyInt s = Option.some r → 1 ≤ r → r ≤ 10 →
      ∀ title, (title = Option.none ∨ title = Option.some "") →
        update_movie db movie_id title (.str s) env =
          { outcome := .ok { m with rating := Option.some r },
            db := { db with
              movies := setFirstMovie db.movies movie_id { m with rating := Option.some r } },
            enriched := false }) ∧
    (∀ rating m2,
      (update_movie db movie_id (Option.some "") rating env).outcome = .ok m2 →
        m2.title = m.title) ∧
    (∀ t, pyStrip t ≠ "" →
      ∀ m2, (update_movie db movie_id (Option.some t) (.str "") env).outcome = .ok m2 →
        m2.rating = Option.none) ∧
    update_movie db movie_id Option.none .none env =
      { outcome := .ok m, db := db, enriched := false } := by
  have hta : ∀ title, title = Option.none ∨ title = Option.some "" →
      pyOrStr title m.title = m.title := by
    rintro title (h | h) <;> subst h <;> simp [pyOrStr]
  refine ⟨?_, ?_, ?_, ?_⟩
  · intro s r hpy h1 h10 title htitle
    have hs : s ≠ "" := pyInt_some_ne_empty hpy
    have hval : validate_movie_input (Option.some m.title) (.str s) =
        .ok (m.title, Option.some r) := by
      simp [validate_movie_input, validateWithTitle, ht, hne, hs, hpy, h1, h10]
    rw [update_movie_of_find _ _ env hfind]
    unfold update_movie_found
    rw [if_neg (by simp [hs])]
    rw [hta title htitle]
    rw [show ratingArgOf m (.str s) = .str s from rfl]
    rw [hval]
    simp only [pyOrStr_some_empty, ne_eq, eq_self_iff_true, not_true_eq_false,
      decide_False, Bool.false_and, Bool.false_eq_true, if_false, ite_false]
  · intro rating m2 hok
    rw [update_movie_of_find _ _ env hfind] at hok
    unfold update_movie_found at hok
    by_cases hblank : (titleBlank (Option.some "") &&
        (rating = RatingVal.none || rating = RatingVal.str "")) = true
    · rw [if_pos hblank] at hok
      simp only [PyOutcome.ok.injEq] at hok
      subst hok
      rfl
    · rw [if_neg hblank] at hok
      rw [hta (Option.some "") (Or.inr rfl)] at hok
      rcases hv : validate_movie_input (Option.some m.title) (ratingArgOf m rating) with
        msg | ⟨nt, nr⟩
      · rw [hv] at hok
        exact PyOutcome.noConfusion hok
      · have hnt : nt = m.title := by
          have := (validate_ok_title hv).1
          simpa [ht] using this
        subst hnt
        simp only [hv, pyOrStr_some_empty, ne_eq, eq_self_iff_true, not_true_eq_false,
          decide_False, Bool.false_and, Bool.false_eq_true, if_false, ite_false,
          PyOutcome.ok.injEq] at hok
        subst hok
        rfl
  · intro t hts m2 hok
    have ht' : t ≠ "" := by
      intro h
      apply hts
      rw [h]
      decide
    rw [update_movie_of_find _ _ env hfind] at hok
    unfold update_movie_found at hok
    rw [if_neg (by simp [titleBlank, hts])] at hok
    rw [show pyOrStr (Option.some t) m.title = t from by simp [pyOrStr, ht']] at hok
    rw [show ratingArgOf m (.str "") = .str "" from rfl] at hok
    have hval : validate_movie_input (Option.some t) (.str "") =
        .ok (pyStrip t, Option.none) := by
      simp [validate_movie_input, validateWithTitle, hts]
    simp only [hval] at hok
    split at hok
    · exact PyOutcome.noConfusion hok
    · simp only [pyOrStr_some_empty, ne_eq, eq_self_iff_true, not_true_eq_false,
        if_false, ite_false, PyOutcome.ok.injEq] at hok
      subst hok
      rfl
  · rw [update_movie_of_find _ _ env hfind]
    unfold update_movie_found
    rw [if_pos (by decide)]

theorem validateWithTitle_str {t s : String} {nt : String} {nr : Option Int}
    {r : Int} (hpy : pyInt s = Option.some r)
    (h : validateWithTitle t (.str s) = .ok (nt, nr)) : nr = Option.some r := by
  have hs : s ≠ "" := pyInt_some_ne_empty hpy
  simp only [validateWithTitle] at h
  split at h
  · exact Except.noConfusion h
  · simp only [hpy] at h
    split at h
    · simp only [Except.ok.injEq, Prod.mk.injEq] at h
      exact h.2.symm
    · exact Except.noConfusion h

theorem validateWithTitle_empty_rating {t : String} {nt : String} {nr : Option Int}
    (h : validateWithTitle t (.str "") = .ok (nt, nr)) : nr = Option.none := by
  simp only [validateWithTitle] at h
  split at h
  · exact Except.noConfusion h
  · rw [if_pos trivial] at h
    simp only [Except.ok.injEq, Prod.mk.injEq] at h
    exact h.2.symm

theorem validateWithTitle_stored {t : String} {nt : String} {nr : Option Int}
    (mr : Option Int)
    (h : validateWithTitle t (ratingOfStored mr) = .ok (nt, nr)) : nr = mr := by
  cases mr with
  | none =>
    simp only [ratingOfStored, validateWithTitle] at h
    split at h
    · exact Except.noConfusion h
    · simp only [Except.ok.injEq, Prod.mk.injEq] at h
      exact h.2.symm
  | some n =>
    simp only [ratingOfStored, validateWithTitle] at h
    split at h
    · exact Except.noConfusion h
    · split at h
      · simp only [Except.ok.injEq, Prod.mk.injEq] at h
        exact h.2.symm
      · exact Except.noConfusion h

/-- When `update_movie_found` is not a no-op and returns a movie, that movie
carries exactly the rating produced by the shared validation. -/
theorem update_found_ok_rating {db : DB} {movie_id : Nat} {m : Movie}
    {title : Option String} {rating : RatingVal} {env : OmdbEnv} {m2 : Movie}
    (hnoop : ¬(titleBlank title &&
      (rating = RatingVal.none || rating = RatingVal.str "")) = true)
    (hok : (update_movie_found db movie_id m title rating env).outcome = .ok m2) :
    ∃ nt nr, validate_movie_input (Option.some (pyOrStr title m.title))
        (ratingArgOf m rating) = .ok (nt, nr) ∧ m2.rating = nr := by
  unfold update_movie_found at hok
  rw [if_neg hnoop] at hok
  rcases hv : validate_movie_input (Option.some (pyOrStr title m.title))
      (ratingArgOf m rating) with msg | ⟨nt, nr⟩
  · rw [hv] at hok
    exact PyOutcome.noConfusion hok
  · refine ⟨nt, nr, rfl, ?_⟩
    rw [hv] at hok
    split at hok
    · exact PyOutcome.noConfusion hok
    · rename_i x norm_title norm_rating heq
      injection heq with hpair
      injection hpair with e1 e2
      subst e1
      subst e2
      split at hok
      · exact PyOutcome.noConfusion hok
      · simp only [pyOrStr_some_empty, ne_eq, eq_self_iff_true, not_true_eq_false,
          if_false, ite_false, PyOutcome.ok.injEq] at hok
        subst hok
        rfl

/-- C3 (amended): the shared validation accepts an absent or empty-string
rating as absent, a value convertible to an integer 1..10 as that integer,
and rejects anything else with the two distinguishable messages;
`update_movie` stores the validated rating when it returns a movie (so a
convertible rating argument is stored as that integer, an empty-string
rating is stored as absent, and an ABSENT rating argument re-validates and
keeps the currently stored rating rather than storing absent); `add_movie`
rejects invalid ratings with the same messages but never stores an
accepted one, because its movie construction raises an uncaught
`TypeError`. -/
theorem rating_validation_amended :
    (∀ title, pyStrip (title.getD "") ≠ "" →
      validate_movie_input title .none =
        .ok (pyStrip (title.getD ""), Option.none) ∧
      validate_movie_input title (.str "") =
        .ok (pyStrip (title.getD ""), Option.none)) ∧
    (∀ title s r, pyStrip (title.getD "") ≠ "" →
      pyInt s = Option.some r → 1 ≤ r → r ≤ 10 →
      validate_movie_input title (.str s) =
        .ok (pyStrip (title.getD ""), Option.some r)) ∧
    (∀ title s, pyStrip (title.getD "") ≠ "" → s ≠ "" → pyInt s = Option.none →
      validate_movie_input title (.str s) =
        .error "Rating must be an integer between 1 and 10.") ∧
    (∀ title s r, pyStrip (title.getD "") ≠ "" →
      pyInt s = Option.some r → ¬(1 ≤ r ∧ r ≤ 10) →
      validate_movie_input title (.str s) =
        .error "Rating must be between 1 and 10.") ∧
    (∀ db movie_id m env title s r,
      db.movies.find? (fun x => x.id = movie_id) = Option.some m →
      pyInt s = Option.some r →
      ∀ m2, (update_movie db movie_id title (.str s) env).outcome = .ok m2 →
        m2.rating = Option.some r) ∧
    (∀ db movie_id m env t,
      db.movies.find? (fun x => x.id = movie_id) = Option.some m →
      pyStrip t ≠ "" →
      ∀ m2, (update_movie db movie_id (Option.some t) .none env).outcome = .ok m2 →
        m2.rating = m.rating) ∧
    (∀ db user_id title rating env nt nr,
      validate_movie_input (Option.some title) rating = .ok (nt, nr) →
      db.movies.any (fun mm => mm.user_id = user_id && ilikeEq mm.title nt) = false →
      add_movie db user_id title rating env =
        (.uncaught "TypeError: 'imdb_id' is an invalid keyword argument for Movie", db)) := by
  refine ⟨?_, ?_, ?_, ?_, ?_, ?_, ?_⟩
  · intro title htitle
    constructor <;> simp [validate_movie_input, validateWithTitle, htitle]
  · intro title s r htitle hpy h1 h10
    have hs : s ≠ "" := pyInt_some_ne_empty hpy
    simp [validate_movie_input, validateWithTitle, htitle, hs, hpy, h1, h10]
  · intro title s htitle hs hpy
    simp [validate_movie_input, validateWithTitle, htitle, hs, hpy]
  · intro title s r htitle hpy hr
    have hs : s ≠ "" := pyInt_some_ne_empty hpy
    simp [validate_movie_input, validateWithTitle, htitle, hs, hpy, hr]
  · intro db movie_id m env title s r hfind hpy m2 hok
    have hs : s ≠ "" := pyInt_some_ne_empty hpy
    rw [update_movie_of_find _ _ env hfind] at hok
    obtain ⟨nt, nr, hv, hr2⟩ := update_found_ok_rating (by simp [hs]) hok
    rw [hr2]
    exact validateWithTitle_str hpy hv
  · intro db movie_id m env t hfind hts m2 hok
    rw [update_movie_of_find _ _ env hfind] at hok
    obtain ⟨nt, nr, hv, hr2⟩ := update_found_ok_rating (by simp [titleBlank, hts]) hok
    rw [hr2]
    exact validateWithTitle_stored m.rating hv
  · intro db user_id title rating env nt nr hval hdup
    exact add_movie_crash db user_id title rating env nt nr hval hdup

/-- Witness for C3 at concrete inputs: rating `7` validates to the integer
7 and is stored by `update_movie`; `"abc"` and `"11"` are rejected with the
two messages; an absent rating validates to absent; `add_movie` with a
valid rating raises the constructor `TypeError` instead of storing. -/
theorem rating_validation_amended_witness :
    validate_movie_input (Option.some "Inception") .none =
      .ok ("Inception", Option.none) ∧
    validate_movie_input (Option.some "Inception") (.str "7") =
      .ok ("Inception", Option.some 7) ∧
    validate_movie_input (Option.some "Inception") (.str "abc") =
      .error "Rating must be an integer between 1 and 10." ∧
    validate_movie_input (Option.some "Inception") (.str "11") =
      .error "Rating must be between 1 and 10." ∧
    ({ inception with rating := Option.some 7 } : Movie).rating = Option.some 7 ∧
    add_movie db2 1 "Heat" (.str "7") env0 =
      (.uncaught "TypeError: 'imdb_id' is an invalid keyword argument for Movie", db2) :=
  ⟨(rating_validation_amended.1 (Option.some "Inception") (by decide)).1,
   rating_validation_amended.2.1 (Option.some "Inception") "7" 7 (by decide)
     (by decide) (by decide) (by decide),
   rating_validation_amended.2.2.1 (Option.some "Inception") "abc" (by decide)
     (by decide) (by decide),
   rating_validation_amended.2.2.2.1 (Option.some "Inception") "11" 11 (by decide)
     (by decide) (by decide),
   rating_validation_amended.2.2.2.2.1 db1 1 inception env0 Option.none "7" 7
     (by decide) (by decide) { inception with rating := Option.some 7 } (by decide),
   rating_validation_amended.2.2.2.2.2.2 db2 1 "Heat" (.str "7") env0 "Heat"
     (Option.some 7) (by decide) (by decide)⟩

/-- Witness for C4 at concrete inputs: supplying only a rating updates just
the rating; an empty-string title leaves the title unchanged; an
empty-string rating next to a non-blank title yields an absent rating; the
all-blank update is a no-op. -/
theorem update_blank_fields_amended_witness :
    update_movie db1 1 Option.none (.str "7") env0 =
      { outcome := .ok { inception with rating := Option.some 7 },
        db := { db1 with
          movies := setFirstMovie db1.movies 1 { inception with rating := Option.some 7 } },
        enriched := false } ∧
    ({ inception with rating := Option.some 3 } : Movie).title = inception.title ∧
    ({ inception with title := "Tenet", rating := Option.none } : Movie).rating =
      Option.none ∧
    update_movie db1 1 Option.none .none env0 =
      { outcome := .ok inception, db := db1, enriched := false } := by
  have H := update_blank_fields_amended db1 1 inception env0 (by decide) (by decide)
    (by decide)
  exact ⟨H.1 "7" 7 (by decide) (by decide) (by decide) Option.none (Or.inl rfl),
    H.2.1 (.str "3") { inception with rating := Option.some 3 } (by decide),
    H.2.2.1 "Tenet" (by decide) { inception with title := "Tenet", rating := Option.none }
      (by decide),
    H.2.2.2⟩

end MoviWeb
